import Mathlib

/-!
Shallow embedding of the asynchronous job subsystem of `src/app/main.py`
(video-splitter service): the transcoder helpers `ffprobe_duration` and
`split_video`, the job runner `_run_split_job`, the submission endpoint
`split_async`, the status endpoint `job_status`, and the authorization
helper `_authorize_video_access`, together with the in-memory job
registry `JOBS`.

Modelling conventions:
* Python floats (media durations, segment times) are modelled as `ℚ`.
* `datetime.utcnow()` results are abstracted as `Nat` timestamps; each
  call site receives its value as an explicit parameter (`t0`, `t1`,
  `t2` in source order).  Monotonicity of the wall clock is a hypothesis
  where a theorem needs it.
* The Python dict `JOBS` is modelled as a function
  `String → Option JobRecord`; `JOBS[k] = v` is `set_job`.
* External effects (presence of ffmpeg/ffprobe on PATH, ffprobe output,
  the ffmpeg exit status, and the directory listing of the output
  directory after the run) are supplied by a `TranscoderEnv` record.
* Python exceptions are modelled by `Except PyExn`; `PyExn.str` is the
  Python `str(e)` of the exception (starlette's `HTTPException.__str__`
  is `f"{status_code}: {detail}"`).
* String helpers (`lower_string`, `str_ends_with`, `str_le`,
  `sort_strs`) are defined over `String.data` so that they compute by
  kernel reduction; they model `str.lower` (ASCII range, which is what
  `Char.toLower` implements), `str.endswith` and Python's `sorted` on
  strings (lexicographic by code point).
-/

/-- Lexicographic comparison of char lists by code point, the order
Python's `sorted` uses on strings. -/
def chars_le : List Char → List Char → Bool
  | [], _ => true
  | _ :: _, [] => false
  | a :: as, b :: bs => if a < b then true else if b < a then false else chars_le as bs

/-- Lexicographic order on strings (Python `<=` on `str`). -/
def str_le (a b : String) : Bool := chars_le a.data b.data

/-- Insert a string into a sorted list, keeping the list sorted. -/
def insert_str (x : String) : List String → List String
  | [] => [x]
  | y :: ys => if str_le x y then x :: y :: ys else y :: insert_str x ys

/-- Python's `sorted` on a list of strings (insertion sort; same
multiset, ascending lexicographic order). -/
def sort_strs : List String → List String
  | [] => []
  | x :: xs => insert_str x (sort_strs xs)

/-- Python `str.lower` restricted to ASCII (what `Char.toLower` does). -/
def lower_string (s : String) : String := ⟨s.data.map Char.toLower⟩

/-- Suffix test on char lists. -/
def ends_with_chars (s suf : List Char) : Bool :=
  if s.length < suf.length then false else (s.drop (s.length - suf.length)) == suf

/-- Python `str.endswith`. -/
def str_ends_with (s suf : String) : Bool := ends_with_chars s.data suf.data

/-- The filename filter `f.lower().endswith(".mp4")` from
`split_video` (main.py:149). -/
def mp4_name (f : String) : Bool := str_ends_with (lower_string f) ".mp4"

/-- A raised Python exception: either a fastapi/starlette `HTTPException`
with a status code and detail string, or an exception coming out of the
`subprocess` module, abstracted to its `str(e)`. -/
inductive PyExn where
  | http (statusCode : Nat) (detail : String)
  | sub (msg : String)
deriving DecidableEq, Repr

/-- Python `str(e)`: starlette's `HTTPException.__str__` renders
`f"{status_code}: {detail}"`; a subprocess exception is abstracted to
its message. -/
def PyExn.str : PyExn → String
  | .http code detail => toString code ++ ": " ++ detail
  | .sub msg => msg

/-- The ffmpeg invocation built by `split_video` (main.py:121-140),
abstracted to the semantically relevant parts of the argv: the input
path, the profile-specific arguments, the `-segment_time` value and the
output pattern. -/
structure FfmpegInvocation where
  in_path : String
  args : List String
  seg_time : ℚ
  out_pattern : String
deriving DecidableEq, Repr

/-- Outcomes of the external tools for one split run: whether
`ffmpeg`/`ffprobe` are on PATH (`_check_ffmpeg`), the ffprobe result
(`Except.error m` = `subprocess.check_output` raised with `str(e) = m`;
`Except.ok none` = output that does not parse as a float;
`Except.ok (some d)` = duration `d`), the ffmpeg exit status for a given
invocation, the message of the `CalledProcessError` when ffmpeg fails,
and the listing of the output directory after the run. -/
structure TranscoderEnv where
  ffmpegOk : Bool
  probe : Except String (Option ℚ)
  run : FfmpegInvocation → Bool
  runErr : FfmpegInvocation → String
  listing : List String

/-- Translation of `ffprobe_duration` (main.py:94-106). -/
def ffprobe_duration (env : TranscoderEnv) : Except PyExn ℚ :=
  if env.ffmpegOk = false then .error (.http 500 "ffmpeg/ffprobe not found on PATH")
  else
    match env.probe with
    | .error m => .error (.sub m)
    | .ok none => .error (.http 400 "Could not determine video duration")
    | .ok (some d) => .ok d

/-- The per-segment target duration `max(duration / max(parts, 1), 0.1)`
computed at main.py:116. -/
def seg_time_of (duration : ℚ) (parts : Int) : ℚ :=
  max (duration / ((max parts 1 : Int) : ℚ)) (1 / 10)

/-- The mode normalization at main.py:118-119: any mode other than
`"fast"` or `"heavy"` is replaced by `"heavy"`. -/
def normalize_mode (mode : String) : String :=
  if mode = "fast" ∨ mode = "heavy" then mode else "heavy"

/-- The profile-specific part of the ffmpeg argv (main.py:121-140):
stream copy for `"fast"`, re-encode with filters otherwise. -/
def profile_args (mode : String) : List String :=
  if mode = "fast" then ["-c", "copy"]
  else ["-vf", "scale=1280:-2,unsharp=5:5:1.0", "-c:v", "libx264", "-preset", "slower",
        "-crf", "20", "-c:a", "aac", "-b:a", "128k"]

/-- The files discovered at main.py:148-150: list the output directory,
keep names whose lowercase form ends in `".mp4"`, join with the output
directory, and sort lexicographically. -/
def discovered_files (listing : List String) (out_dir : String) : List String :=
  sort_strs ((listing.filter mp4_name).map (fun f => out_dir ++ "/" ++ f))

/-- The ffmpeg invocation assembled at main.py:121-140 from the input
path, the output directory, the computed segment time and the
(already normalized) mode. -/
def split_invocation (in_path out_dir : String) (seg : ℚ) (mode : String) :
    FfmpegInvocation :=
  { in_path := in_path, args := profile_args mode, seg_time := seg,
    out_pattern := out_dir ++ "/part_%02d.mp4" }

/-- Translation of `split_video` (main.py:108-151), additionally
returning the ffmpeg invocation it issued so that theorems can speak
about what was passed to the transcoder. -/
def split_video_core (env : TranscoderEnv) (in_path out_dir : String) (parts : Int)
    (mode : String) : Except PyExn (FfmpegInvocation × List String) :=
  if env.ffmpegOk = false then .error (.http 500 "ffmpeg/ffprobe not found on PATH")
  else
    match ffprobe_duration env with
    | .error e => .error e
    | .ok duration =>
      if env.run (split_invocation in_path out_dir (seg_time_of duration parts)
            (normalize_mode mode)) = false then
        .error (.http 500 ("ffmpeg failed: " ++
          env.runErr (split_invocation in_path out_dir (seg_time_of duration parts)
            (normalize_mode mode))))
      else
        .ok (split_invocation in_path out_dir (seg_time_of duration parts)
              (normalize_mode mode),
             discovered_files env.listing out_dir)

/-- `split_video` as seen by its callers: the list of produced files. -/
def split_video (env : TranscoderEnv) (in_path out_dir : String) (parts : Int)
    (mode : String) : Except PyExn (List String) :=
  match split_video_core env in_path out_dir parts mode with
  | .error e => .error e
  | .ok pr => .ok pr.2

/-- One record of the `JOBS` registry.  The Python records are dicts;
a key absent from the dict is a field equal to `none` here. -/
structure JobRecord where
  status : String
  mode : Option String := none
  parts : Option Nat := none
  error : Option String := none
  queued_at : Option Nat := none
  started_at : Option Nat := none
  finished_at : Option Nat := none
deriving DecidableEq, Repr

/-- The record written by `split_async` (main.py:344). -/
def queued_record (mode : String) (t : Nat) : JobRecord :=
  { status := "queued", mode := some mode, parts := none, error := none,
    queued_at := some t, started_at := none, finished_at := none }

/-- The record written on entering the job body (main.py:317). -/
def processing_record (mode : String) (t : Nat) : JobRecord :=
  { status := "processing", mode := some mode, parts := none, error := none,
    queued_at := none, started_at := some t, finished_at := none }

/-- The record written on success (main.py:320-325). -/
def done_record (mode : String) (nparts : Nat) (t : Nat) : JobRecord :=
  { status := "done", mode := some mode, parts := some nparts, error := none,
    queued_at := none, started_at := none, finished_at := some t }

/-- The record written on failure (main.py:328). -/
def error_record (msg : String) (t : Nat) : JobRecord :=
  { status := "error", mode := none, parts := none, error := some msg,
    queued_at := none, started_at := none, finished_at := some t }

/-- The in-memory job registry `JOBS` (main.py:36), a Python dict from
video id to record. -/
abbrev Registry := String → Option JobRecord

/-- The registry with no entries. -/
def empty_registry : Registry := fun _ => none

/-- `JOBS[k] = v` under `JLOCK` (dict assignment: replaces any previous
value for `k`, leaves other keys unchanged). -/
def set_job (r : Registry) (k : String) (v : JobRecord) : Registry :=
  fun q => if q = k then some v else r q

/-- Apply a sequence of writes to key `k` in source order. -/
def apply_writes (r : Registry) (k : String) : List JobRecord → Registry
  | [] => r
  | w :: ws => apply_writes (set_job r k w) k ws

/-- `DATA_DIR` (main.py:22, with the environment default `"data"`). -/
def DATA_DIR : String := "data"

/-- `os.path.join(DATA_DIR, video_id)` as in main.py:313. -/
def vdir_of (video_id : String) : String := DATA_DIR ++ "/" ++ video_id

/-- `os.path.join(vdir, "input.mp4")` as in main.py:314. -/
def in_path_of (video_id : String) : String := vdir_of video_id ++ "/input.mp4"

/-- The per-mode output directory `os.path.join(vdir, f"segments_.")`
built at main.py:315 from the raw (un-normalized) mode string. -/
def out_dir_of (video_id mode : String) : String :=
  vdir_of video_id ++ "/segments_" ++ mode

/-- The sequence of registry writes performed by `_run_split_job`
(main.py:311-328) for one invocation: the `processing` record, then
exactly one terminal record chosen by the outcome of `split_video`.
`t1` and `t2` are the values of the two `utcnow()` calls.  The whole
body runs inside `try/except Exception`, so the function is total: every
failure of `split_video` is converted into the `error` write. -/
def run_split_job_writes (env : TranscoderEnv) (t1 t2 : Nat) (video_id : String)
    (parts : Int) (mode : String) : List JobRecord :=
  processing_record mode t1 ::
    (match split_video env (in_path_of video_id) (out_dir_of video_id mode) parts mode with
     | .ok files => [done_record mode files.length t2]
     | .error e => [error_record (PyExn.str e) t2])

/-- `_run_split_job` as a registry transformer: it performs its writes
in order and returns (it never raises to its scheduler). -/
def run_split_job (env : TranscoderEnv) (t1 t2 : Nat) (r : Registry) (video_id : String)
    (parts : Int) (mode : String) : Registry :=
  apply_writes r video_id (run_split_job_writes env t1 t2 video_id parts mode)

/-- The metadata record `meta.json` of a video, reduced to the field the
job endpoints consult. -/
structure VideoMeta where
  owner : String
deriving DecidableEq, Repr

/-- A hard-coded user entry of `USERS` (main.py:30-33). -/
structure UserRec where
  password : String
  role : String
deriving DecidableEq, Repr

/-- The hard-coded `USERS` dict (main.py:30-33). -/
def USERS : String → Option UserRec
  | "admin" => some { password := "admin123", role := "admin" }
  | "user" => some { password := "user123", role := "user" }
  | _ => none

/-- `USERS.get(user, {}).get("role")` as used at main.py:288. -/
def user_role (user : String) : Option String := (USERS user).map (·.role)

/-- The filesystem state the job endpoints read: `read_meta` of each
video directory and `os.path.exists(vdir/input.mp4)`. -/
structure Fs where
  meta : String → Option VideoMeta
  inputExists : String → Bool

/-- Translation of `_authorize_video_access` (main.py:283-291). -/
def authorize_video_access (fs : Fs) (video_id user : String) : Except PyExn VideoMeta :=
  match fs.meta video_id with
  | none => .error (.http 404 "Video not found")
  | some meta =>
    if user_role user ≠ some "admin" ∧ meta.owner ≠ user then .error (.http 403 "Forbidden")
    else .ok meta

/-- The response body of `split_async` (main.py:346). -/
structure SplitAsyncResp where
  job : String
  status : String
deriving DecidableEq, Repr

/-- Translation of the request-path part of `split_async`
(main.py:330-346): authorization, input-file check, the `queued` write,
and the response.  The scheduled background work is
`run_split_job_writes`/`run_split_job`; `t0` is the `utcnow()` of the
`queued` write. -/
def split_async (fs : Fs) (r : Registry) (user video_id : String) (parts : Int)
    (mode : String) (t0 : Nat) : Except PyExn (Registry × SplitAsyncResp) :=
  match authorize_video_access fs video_id user with
  | .error e => .error e
  | .ok _ =>
    if fs.inputExists video_id = false then .error (.http 404 "Video not found")
    else .ok (set_job r video_id (queued_record mode t0),
              { job := video_id, status := "queued" })

/-- The full sequence of registry writes of one accepted async
submission: the `queued` write issued by `split_async`, followed by the
two writes of the background `_run_split_job`. -/
def split_async_writes (env : TranscoderEnv) (t0 t1 t2 : Nat) (video_id : String)
    (parts : Int) (mode : String) : List JobRecord :=
  queued_record mode t0 :: run_split_job_writes env t1 t2 video_id parts mode

/-- Translation of `job_status` (main.py:348-356): authorize against the
video resource first, then read the registry, answering
`{"status": "unknown"}` when no record exists. -/
def job_status (fs : Fs) (r : Registry) (video_id user : String) : Except PyExn JobRecord :=
  match authorize_video_access fs video_id user with
  | .error e => .error e
  | .ok _ =>
    match r video_id with
    | none => .ok { status := "unknown" }
    | some job => .ok job

/-- Position of a status in the lifecycle chain
`queued → processing → terminal`. -/
def status_rank (s : String) : Nat :=
  if s = "queued" then 0 else if s = "processing" then 1 else 2

/-- The status a poller observes after the first `k` writes of a trace
have been applied (the status of the most recent write). -/
def observed_status (ws : List JobRecord) (k : Nat) : String :=
  match (ws.take k).getLast? with
  | none => ""
  | some rec => rec.status

/-- A transcoder environment in which ffmpeg/ffprobe are missing from
PATH (`_check_ffmpeg` raises). -/
def env_noffmpeg : TranscoderEnv :=
  { ffmpegOk := false, probe := Except.ok (some 40), run := fun _ => true,
    runErr := fun _ => "", listing := [] }

/-- A transcoder environment for a 40-second source whose ffmpeg run
succeeds and leaves four segment files (plus one stray non-media file)
in the output directory. -/
def env_ok40 : TranscoderEnv :=
  { ffmpegOk := true, probe := Except.ok (some 40), run := fun _ => true,
    runErr := fun _ => "",
    listing := ["part_00.mp4", "part_01.mp4", "part_02.MP4", "part_03.mp4", "meta.json"] }

/-- A filesystem with no video directories at all. -/
def fs_empty : Fs := { meta := fun _ => none, inputExists := fun _ => false }

/-- A filesystem holding exactly one video `v1` owned by `user`, with
its `input.mp4` present. -/
def fs_v1 : Fs :=
  { meta := fun v => if v = "v1" then some { owner := "user" } else none,
    inputExists := fun v => v == "v1" }

/-- A registry already holding a terminal record for `v1` (a previous
completed job). -/
def r_prior : Registry :=
  fun v => if v = "v1" then some (done_record "heavy" 10 5) else none

/-! Helper lemmas. -/

theorem length_insert_str (x : String) (l : List String) :
    (insert_str x l).length = l.length + 1 := by
  induction l with
  | nil => rfl
  | cons y ys ih =>
    simp only [insert_str]
    split <;> simp [ih]

theorem length_sort_strs (l : List String) : (sort_strs l).length = l.length := by
  induction l with
  | nil => rfl
  | cons x xs ih => simp [sort_strs, length_insert_str, ih]

theorem length_discovered_files (listing : List String) (out_dir : String) :
    (discovered_files listing out_dir).length = (listing.filter mp4_name).length := by
  simp [discovered_files, length_sort_strs]

theorem apply_writes_getLast (k : String) :
    ∀ (ws : List JobRecord) (r : Registry), ws ≠ [] →
      apply_writes r k ws k = ws.getLast? := by
  intro ws
  induction ws with
  | nil => intro r h; exact absurd rfl h
  | cons w ws ih =>
    intro r _
    cases ws with
    | nil => simp [apply_writes, set_job]
    | cons w2 ws2 =>
      show apply_writes (set_job r k w) k (w2 :: ws2) k = _
      rw [ih _ (by simp)]
      simp [List.getLast?_cons_cons]

theorem apply_writes_other (k q : String) (hq : q ≠ k) :
    ∀ (ws : List JobRecord) (r : Registry), apply_writes r k ws q = r q := by
  intro ws
  induction ws with
  | nil => intro r; rfl
  | cons w ws ih =>
    intro r
    show apply_writes (set_job r k w) k ws q = r q
    rw [ih]
    simp [set_job, hq]

theorem pyexn_http_str_ne_empty (c : Nat) (d : String) :
    PyExn.str (.http c d) ≠ "" := by
  intro h
  have hd : (toString c ++ ": " ++ d).data = "".data := congrArg String.data h
  simp only [String.data_append] at hd
  simp at hd

theorem ffprobe_error_shape (env : TranscoderEnv) (e : PyExn)
    (h : ffprobe_duration env = Except.error e) :
    (∃ c d, e = PyExn.http c d) ∨ (∃ m, e = PyExn.sub m ∧ env.probe = Except.error m) := by
  unfold ffprobe_duration at h
  split at h
  · exact Or.inl ⟨500, _, (Except.error.inj h).symm⟩
  · split at h
    · exact Or.inr ⟨_, (Except.error.inj h).symm, by assumption⟩
    · exact Or.inl ⟨400, _, (Except.error.inj h).symm⟩
    · exact absurd h (by simp)

theorem split_video_core_error_shape (env : TranscoderEnv) (p o : String) (parts : Int)
    (mode : String) (e : PyExn)
    (h : split_video_core env p o parts mode = Except.error e) :
    (∃ c d, e = PyExn.http c d) ∨ (∃ m, e = PyExn.sub m ∧ env.probe = Except.error m) := by
  unfold split_video_core at h
  split at h
  · exact Or.inl ⟨500, _, (Except.error.inj h).symm⟩
  · split at h
    · exact ffprobe_error_shape env e (by rw [‹ffprobe_duration env = _›]; exact congrArg _ (Except.error.inj h))
    · split at h
      · exact Or.inl ⟨500, _, (Except.error.inj h).symm⟩
      · exact absurd h (by simp)

theorem split_video_error_shape (env : TranscoderEnv) (p o : String) (parts : Int)
    (mode : String) (e : PyExn)
    (h : split_video env p o parts mode = Except.error e) :
    (∃ c d, e = PyExn.http c d) ∨ (∃ m, e = PyExn.sub m ∧ env.probe = Except.error m) := by
  unfold split_video at h
  split at h
  · exact split_video_core_error_shape env p o parts mode e
      (by rw [‹split_video_core env p o parts mode = _›]; exact congrArg _ (Except.error.inj h))
  · exact absurd h (by simp)

theorem split_video_error_str_ne_empty (env : TranscoderEnv) (p o : String) (parts : Int)
    (mode : String) (e : PyExn)
    (hprobe : ∀ m, env.probe = Except.error m → m ≠ "")
    (h : split_video env p o parts mode = Except.error e) :
    PyExn.str e ≠ "" := by
  rcases split_video_error_shape env p o parts mode e h with ⟨c, d, rfl⟩ | ⟨m, rfl, hm⟩
  · exact pyexn_http_str_ne_empty c d
  · exact hprobe m hm

theorem ffprobe_ok_probe (env : TranscoderEnv) (d : ℚ)
    (h : ffprobe_duration env = Except.ok d) : env.probe = Except.ok (some d) := by
  unfold ffprobe_duration at h
  split at h
  · exact absurd h (by simp)
  · split at h
    · exact absurd h (by simp)
    · exact absurd h (by simp)
    · rename_i heq
      rw [heq, Except.ok.inj h]

theorem split_video_core_ok_shape (env : TranscoderEnv) (p o : String) (parts : Int)
    (mode : String) (pr : FfmpegInvocation × List String)
    (h : split_video_core env p o parts mode = Except.ok pr) :
    ∃ d, env.probe = Except.ok (some d) ∧
      pr = (split_invocation p o (seg_time_of d parts) (normalize_mode mode),
            discovered_files env.listing o) := by
  unfold split_video_core at h
  split at h
  · exact absurd h (by simp)
  · split at h
    · exact absurd h (by simp)
    · rename_i d hd
      split at h
      · exact absurd h (by simp)
      · exact ⟨d, ffprobe_ok_probe env d hd, (Except.ok.inj h).symm⟩

theorem run_split_job_at_id (env : TranscoderEnv) (t1 t2 : Nat) (r : Registry)
    (video_id : String) (parts : Int) (mode : String) :
    run_split_job env t1 t2 r video_id parts mode video_id =
      (run_split_job_writes env t1 t2 video_id parts mode).getLast? := by
  apply apply_writes_getLast
  simp [run_split_job_writes]

theorem run_split_job_other (env : TranscoderEnv) (t1 t2 : Nat) (r : Registry)
    (video_id : String) (parts : Int) (mode : String) (q : String) (hq : q ≠ video_id) :
    run_split_job env t1 t2 r video_id parts mode q = r q :=
  apply_writes_other video_id q hq _ r

theorem observed_status_three (a b c : JobRecord) (k : Nat) :
    observed_status [a, b, c] (k + 3) = c.status := by
  unfold observed_status
  rw [List.take_of_length_le (by simp)]
  rfl

theorem rank_chain_monotone (mode : String) (t0 t1 : Nat) (x : JobRecord)
    (hx : status_rank x.status = 2) (i j : Nat) (h1 : 1 ≤ i) (hij : i ≤ j) :
    status_rank
        (observed_status [queued_record mode t0, processing_record mode t1, x] i)
      ≤ status_rank
          (observed_status [queued_record mode t0, processing_record mode t1, x] j) := by
  rcases i with _ | _ | _ | i
  · omega
  · have h0 : status_rank
        (observed_status [queued_record mode t0, processing_record mode t1, x] 1) = 0 := rfl
    rw [h0]
    exact Nat.zero_le _
  · rcases j with _ | _ | _ | j
    · omega
    · omega
    · exact le_refl _
    · have ha : status_rank
          (observed_status [queued_record mode t0, processing_record mode t1, x] 2) = 1 := rfl
      rw [ha, observed_status_three, hx]
      omega
  · rcases j with _ | _ | _ | j
    · omega
    · omega
    · omega
    · rw [observed_status_three, observed_status_three]

/-! Claim theorems. -/

/-- C1 counterexample: for a failing async split (ffmpeg/ffprobe missing
from PATH), the terminal record written by `_run_split_job` has status
`error` and a `finished_at`, but its `started_at` is absent — the claim
that the terminal record contains both `started_at` and `finished_at`
is false on the code (main.py:328 writes only status, error and
finished_at). -/
theorem C1_counterexample :
    run_split_job env_noffmpeg 1 2 empty_registry "v1" 4 "fast" "v1"
      = some (error_record
          (PyExn.str (PyExn.http 500 "ffmpeg/ffprobe not found on PATH")) 2)
    ∧ (error_record
        (PyExn.str (PyExn.http 500 "ffmpeg/ffprobe not found on PATH")) 2).status
      = "error"
    ∧ (error_record
        (PyExn.str (PyExn.http 500 "ffmpeg/ffprobe not found on PATH")) 2).started_at
      = none :=
  ⟨rfl, rfl, rfl⟩

/-- C1 (amended): for every failing async split invocation, the terminal
record written by `_run_split_job` has status `error`, a non-empty
`error` message and `finished_at = t2`; `started_at` appears only in the
intermediate `processing` record (it is not retained in the terminal
record), and the terminal `finished_at` is `≥` that `started_at` when
the clock is monotone.  The non-emptiness hypothesis on `env.probe` says
that an exception raised by `subprocess.check_output` stringifies to a
non-empty message, which `CalledProcessError` guarantees. -/
theorem C1_failing_run_error_record (env : TranscoderEnv) (t1 t2 : Nat) (r : Registry)
    (video_id : String) (parts : Int) (mode : String) (e : PyExn)
    (hprobe : ∀ m, env.probe = Except.error m → m ≠ "")
    (hclock : t1 ≤ t2)
    (hfail : split_video env (in_path_of video_id) (out_dir_of video_id mode) parts mode
      = Except.error e) :
    run_split_job env t1 t2 r video_id parts mode video_id
        = some (error_record (PyExn.str e) t2)
    ∧ PyExn.str e ≠ ""
    ∧ (error_record (PyExn.str e) t2).status = "error"
    ∧ (error_record (PyExn.str e) t2).finished_at = some t2
    ∧ (error_record (PyExn.str e) t2).started_at = none
    ∧ (run_split_job_writes env t1 t2 video_id parts mode).head?
        = some (processing_record mode t1)
    ∧ (processing_record mode t1).started_at = some t1
    ∧ t1 ≤ t2 := by
  refine ⟨?_, split_video_error_str_ne_empty env _ _ parts mode e hprobe hfail,
    rfl, rfl, rfl, ?_, rfl, hclock⟩
  · rw [run_split_job_at_id]
    unfold run_split_job_writes
    rw [hfail]
    rfl
  · unfold run_split_job_writes
    rfl

/-- C1 witness: the amended statement at a concrete failing input. -/
theorem C1_failing_run_error_record_witness :
    run_split_job env_noffmpeg 1 2 empty_registry "v1" 4 "fast" "v1"
      = some (error_record
          (PyExn.str (PyExn.http 500 "ffmpeg/ffprobe not found on PATH")) 2)
    ∧ PyExn.str (PyExn.http 500 "ffmpeg/ffprobe not found on PATH") ≠ "" := by
  have h := C1_failing_run_error_record env_noffmpeg 1 2 empty_registry "v1" 4 "fast"
    (PyExn.http 500 "ffmpeg/ffprobe not found on PATH")
    (fun m hm => by simp [env_noffmpeg] at hm) (by decide) rfl
  exact ⟨h.1, h.2.1⟩

/-- C2: for every input, `_run_split_job` is total (the `try/except`
boundary converts every failure of the split into a registry write, so
nothing propagates to the scheduler): its write trace is always the
`processing` record followed by exactly one terminal record whose status
is `done` or `error`, that terminal record is what the registry holds
afterwards (never stuck in `processing`), and whenever `split_video`
fails with exception `e` the terminal record is the `error` record
carrying `str(e)`. -/
theorem C2_runner_catches_all (env : TranscoderEnv) (t1 t2 : Nat) (r : Registry)
    (video_id : String) (parts : Int) (mode : String) :
    ∃ term : JobRecord,
      run_split_job_writes env t1 t2 video_id parts mode
          = [processing_record mode t1, term]
      ∧ (term.status = "done" ∨ term.status = "error")
      ∧ run_split_job env t1 t2 r video_id parts mode video_id = some term
      ∧ (∀ e, split_video env (in_path_of video_id) (out_dir_of video_id mode) parts mode
            = Except.error e → term = error_record (PyExn.str e) t2) := by
  cases hsv : split_video env (in_path_of video_id) (out_dir_of video_id mode) parts mode with
  | ok files =>
    refine ⟨done_record mode files.length t2, ?_, Or.inl rfl, ?_, ?_⟩
    · unfold run_split_job_writes
      rw [hsv]
    · rw [run_split_job_at_id]
      unfold run_split_job_writes
      rw [hsv]
      rfl
    · intro e he
      exact absurd he (by simp)
  | error e =>
    refine ⟨error_record (PyExn.str e) t2, ?_, Or.inr rfl, ?_, ?_⟩
    · unfold run_split_job_writes
      rw [hsv]
    · rw [run_split_job_at_id]
      unfold run_split_job_writes
      rw [hsv]
      rfl
    · intro e2 he2
      rw [Except.error.inj he2]

/-- C2 witness: the runner records a terminal `error` (not a stuck
`processing`) for a concrete failing input. -/
theorem C2_runner_catches_all_witness :
    run_split_job env_noffmpeg 3 4 empty_registry "v2" 5 "heavy" "v2"
      = some (error_record
          (PyExn.str (PyExn.http 500 "ffmpeg/ffprobe not found on PATH")) 4) := by
  obtain ⟨term, hw, hs, hreg, hfail⟩ :=
    C2_runner_catches_all env_noffmpeg 3 4 empty_registry "v2" 5 "heavy"
  rw [hfail (PyExn.http 500 "ffmpeg/ffprobe not found on PATH") rfl] at hreg
  exact hreg

/-- C3 counterexample: for the identifier `v3`, never submitted and with
no backing video metadata, `job_status` raises `HTTPException(404)`
instead of returning the synthetic `unknown` record — the ownership
check at main.py:351 runs before the registry is consulted, so the claim
is false for identifiers without a stored video. -/
theorem C3_counterexample :
    job_status fs_empty empty_registry "v3" "admin"
        = Except.error (PyExn.http 404 "Video not found")
    ∧ job_status fs_empty empty_registry "v3" "admin"
        ≠ Except.ok { status := "unknown" } := by
  refine ⟨rfl, fun h => ?_⟩
  rw [show job_status fs_empty empty_registry "v3" "admin"
      = Except.error (PyExn.http 404 "Video not found") from rfl] at h
  exact Except.noConfusion h

/-- C3 (amended): for every job identifier whose video metadata exists
and whose caller passes the ownership check (admin role or owner), and
that has never been submitted (no registry record), `job_status` returns
the synthetic record with status `unknown` instead of raising. -/
theorem C3_unknown_for_unsubmitted (fs : Fs) (r : Registry) (video_id user : String)
    (m : VideoMeta)
    (hmeta : fs.meta video_id = some m)
    (hauth : user_role user = some "admin" ∨ m.owner = user)
    (hjob : r video_id = none) :
    job_status fs r video_id user = Except.ok { status := "unknown" } := by
  unfold job_status authorize_video_access
  have hcond : ¬(user_role user ≠ some "admin" ∧ m.owner ≠ user) := by
    rcases hauth with h | h
    · exact fun hc => hc.1 h
    · exact fun hc => hc.2 h
  simp only [hmeta, if_neg hcond, hjob]

/-- C3 witness: the amended statement at a concrete input. -/
theorem C3_unknown_for_unsubmitted_witness :
    job_status fs_v1 empty_registry "v1" "user" = Except.ok { status := "unknown" } :=
  C3_unknown_for_unsubmitted fs_v1 empty_registry "v1" "user" { owner := "user" }
    rfl (Or.inr rfl) rfl

/-- C4: for every accepted async submission, the registry writes for the
job identifier are, in order, the `queued` record, the `processing`
record and exactly one terminal record (`done` or `error`); after the
first `k` writes the registry holds exactly the `k`-th record, and the
status a poller observes never moves backward along the chain
`queued → processing → terminal`. -/
theorem C4_lifecycle_order (env : TranscoderEnv) (t0 t1 t2 : Nat) (r : Registry)
    (video_id : String) (parts : Int) (mode : String) :
    ((split_async_writes env t0 t1 t2 video_id parts mode).map JobRecord.status
        = ["queued", "processing", "done"]
      ∨ (split_async_writes env t0 t1 t2 video_id parts mode).map JobRecord.status
        = ["queued", "processing", "error"])
    ∧ (∀ k, 1 ≤ k →
        apply_writes r video_id
            ((split_async_writes env t0 t1 t2 video_id parts mode).take k) video_id
          = ((split_async_writes env t0 t1 t2 video_id parts mode).take k).getLast?)
    ∧ (∀ i j, 1 ≤ i → i ≤ j →
        status_rank (observed_status (split_async_writes env t0 t1 t2 video_id parts mode) i)
          ≤ status_rank
              (observed_status (split_async_writes env t0 t1 t2 video_id parts mode) j)) := by
  cases hsv : split_video env (in_path_of video_id) (out_dir_of video_id mode) parts mode with
  | ok files =>
    have hw : split_async_writes env t0 t1 t2 video_id parts mode
        = [queued_record mode t0, processing_record mode t1,
           done_record mode files.length t2] := by
      unfold split_async_writes run_split_job_writes
      rw [hsv]
    refine ⟨Or.inl ?_, ?_, ?_⟩
    · rw [hw]
      rfl
    · intro k hk
      apply apply_writes_getLast
      rw [hw]
      cases k with
      | zero => omega
      | succ k => simp
    · intro i j h1 hij
      rw [hw]
      exact rank_chain_monotone mode t0 t1 (done_record mode files.length t2) rfl i j h1 hij
  | error e =>
    have hw : split_async_writes env t0 t1 t2 video_id parts mode
        = [queued_record mode t0, processing_record mode t1,
           error_record (PyExn.str e) t2] := by
      unfold split_async_writes run_split_job_writes
      rw [hsv]
    refine ⟨Or.inr ?_, ?_, ?_⟩
    · rw [hw]
      rfl
    · intro k hk
      apply apply_writes_getLast
      rw [hw]
      cases k with
      | zero => omega
      | succ k => simp
    · intro i j h1 hij
      rw [hw]
      exact rank_chain_monotone mode t0 t1 (error_record (PyExn.str e) t2) rfl i j h1 hij

/-- C4 witness: the rank-monotonicity clause at a concrete submission
and concrete poll instants. -/
theorem C4_lifecycle_order_witness :
    status_rank (observed_status (split_async_writes env_noffmpeg 0 1 2 "v1" 4 "fast") 1)
      ≤ status_rank
          (observed_status (split_async_writes env_noffmpeg 0 1 2 "v1" 4 "fast") 3) :=
  (C4_lifecycle_order env_noffmpeg 0 1 2 empty_registry "v1" 4 "fast").2.2 1 3
    (by decide) (by decide)

/-- C10: `job_status` performs the video-ownership authorization before
consulting the job registry: for an identifier with no video metadata it
raises `HTTPException(404)` whatever the registry holds, and for an
existing video with a non-owner, non-admin caller it raises
`HTTPException(403)`, again whatever the registry holds. -/
theorem C10_auth_before_registry (fs : Fs) (r : Registry) (video_id user : String) :
    (fs.meta video_id = none →
      job_status fs r video_id user = Except.error (PyExn.http 404 "Video not found"))
    ∧ (∀ m, fs.meta video_id = some m → user_role user ≠ some "admin" → m.owner ≠ user →
        job_status fs r video_id user = Except.error (PyExn.http 403 "Forbidden")) := by
  constructor
  · intro h
    unfold job_status authorize_video_access
    rw [h]
  · intro m hm hrole howner
    unfold job_status authorize_video_access
    simp only [hm, if_pos (And.intro hrole howner)]

/-- C10 witness: NotFound for an identifier with no metadata even though
the registry holds a record for it, and Forbidden for a non-owner,
non-admin caller. -/
theorem C10_auth_before_registry_witness :
    job_status fs_empty r_prior "v1" "admin"
        = Except.error (PyExn.http 404 "Video not found")
    ∧ job_status fs_v1 r_prior "v1" "eve"
        = Except.error (PyExn.http 403 "Forbidden") :=
  ⟨(C10_auth_before_registry fs_empty r_prior "v1" "admin").1 rfl,
   (C10_auth_before_registry fs_v1 r_prior "v1" "eve").2 { owner := "user" } rfl
     (by decide) (by decide)⟩

/-- C5: whenever the source probes to duration `d`, the segment time
carried by the ffmpeg invocation that `split_video` issues equals
`d / max(parts, 1)` clamped below by the `0.1` floor; in particular a
40-second source with `parts = 4` yields a 10-second target segment
duration. -/
theorem C5_segment_duration (env : TranscoderEnv) (in_path out_dir : String) (parts : Int)
    (mode : String) (d : ℚ) (inv : FfmpegInvocation) (files : List String)
    (hprobe : env.probe = Except.ok (some d))
    (hok : split_video_core env in_path out_dir parts mode = Except.ok (inv, files)) :
    inv.seg_time = max (d / ((max parts 1 : Int) : ℚ)) (1 / 10)
    ∧ seg_time_of 40 4 = 10 := by
  obtain ⟨d2, hp2, hpr⟩ :=
    split_video_core_ok_shape env in_path out_dir parts mode (inv, files) hok
  rw [hprobe] at hp2
  have hd : d2 = d := (Option.some.inj (Except.ok.inj hp2)).symm
  subst hd
  have hinv : inv = split_invocation in_path out_dir (seg_time_of d2 parts)
      (normalize_mode mode) := congrArg Prod.fst hpr
  constructor
  · rw [hinv]
    show seg_time_of d2 parts = _
    unfold seg_time_of
    rfl
  · unfold seg_time_of
    rw [show ((max (4 : Int) 1 : Int) : ℚ) = 4 by norm_num]
    norm_num

/-- C5 witness: the concrete 40-second, `parts = 4` scenario. -/
theorem C5_segment_duration_witness :
    (split_invocation (in_path_of "v1") (out_dir_of "v1" "fast") (seg_time_of 40 4)
        (normalize_mode "fast")).seg_time
      = max ((40 : ℚ) / ((max (4 : Int) 1 : Int) : ℚ)) (1 / 10)
    ∧ seg_time_of 40 4 = 10 :=
  C5_segment_duration env_ok40 (in_path_of "v1") (out_dir_of "v1" "fast") 4 "fast" 40
    (split_invocation (in_path_of "v1") (out_dir_of "v1" "fast") (seg_time_of 40 4)
      (normalize_mode "fast"))
    (discovered_files env_ok40.listing (out_dir_of "v1" "fast")) rfl rfl

/-- C6: a mode string other than `"fast"` and `"heavy"` makes
`split_video` behave exactly as if `"heavy"` (the default profile) had
been requested: the issued invocation and the whole outcome coincide. -/
theorem C6_unrecognized_mode_default (env : TranscoderEnv) (in_path out_dir : String)
    (parts : Int) (mode : String) (h1 : mode ≠ "fast") (h2 : mode ≠ "heavy") :
    split_video_core env in_path out_dir parts mode
        = split_video_core env in_path out_dir parts "heavy"
    ∧ split_video env in_path out_dir parts mode
        = split_video env in_path out_dir parts "heavy" := by
  have hm : normalize_mode mode = normalize_mode "heavy" := by
    unfold normalize_mode
    simp [h1, h2]
  have hcore : split_video_core env in_path out_dir parts mode
      = split_video_core env in_path out_dir parts "heavy" := by
    unfold split_video_core
    simp only [hm]
  refine ⟨hcore, ?_⟩
  unfold split_video
  rw [hcore]

/-- C6 witness: the unrecognized mode `"turbo"` at concrete inputs. -/
theorem C6_unrecognized_mode_default_witness :
    split_video env_ok40 "in.mp4" "out" 3 "turbo"
      = split_video env_ok40 "in.mp4" "out" 3 "heavy" :=
  (C6_unrecognized_mode_default env_ok40 "in.mp4" "out" 3 "turbo"
    (by decide) (by decide)).2

/-- C7: on every successful split, the runner's `done` record carries
`parts` equal to the number of produced files, where the produced files
are exactly those discovered by listing the destination directory for
names with the `.mp4` extension (case-insensitively) in lexicographic
order. -/
theorem C7_done_parts_count (env : TranscoderEnv) (t1 t2 : Nat) (r : Registry)
    (video_id : String) (parts : Int) (mode : String) (files : List String)
    (hok : split_video env (in_path_of video_id) (out_dir_of video_id mode) parts mode
      = Except.ok files) :
    run_split_job env t1 t2 r video_id parts mode video_id
        = some (done_record mode files.length t2)
    ∧ files = discovered_files env.listing (out_dir_of video_id mode)
    ∧ files.length = (env.listing.filter mp4_name).length := by
  have hfiles : files = discovered_files env.listing (out_dir_of video_id mode) := by
    unfold split_video at hok
    split at hok
    · exact absurd hok (by simp)
    · rename_i pr hpr
      obtain ⟨d, hp, hpr2⟩ :=
        split_video_core_ok_shape env _ _ parts mode pr hpr
      rw [← Except.ok.inj hok, hpr2]
  refine ⟨?_, hfiles, ?_⟩
  · rw [run_split_job_at_id]
    unfold run_split_job_writes
    rw [hok]
    rfl
  · rw [hfiles, length_discovered_files]

/-- C7 witness: a concrete successful run whose output directory holds
four media files (one with an upper-case extension) and one stray file;
the `done` record counts exactly the four discovered files. -/
theorem C7_done_parts_count_witness :
    run_split_job env_ok40 1 2 empty_registry "v1" 4 "fast" "v1"
      = some (done_record "fast"
          (discovered_files env_ok40.listing (out_dir_of "v1" "fast")).length 2)
    ∧ (discovered_files env_ok40.listing (out_dir_of "v1" "fast")).length = 4 := by
  have h := C7_done_parts_count env_ok40 1 2 empty_registry "v1" 4 "fast"
    (discovered_files env_ok40.listing (out_dir_of "v1" "fast")) rfl
  exact ⟨h.1, by decide⟩

/-- C8: each accepted async submission stores its `queued` record by
dict assignment: the new registry is exactly the old one with the entry
for the submitted identifier replaced (last write wins, whatever record
was there before, with no history kept), and every other identifier's
entry is untouched. -/
theorem C8_submit_overwrites (fs : Fs) (r : Registry) (user video_id : String)
    (parts : Int) (mode : String) (t0 : Nat) (r2 : Registry) (resp : SplitAsyncResp)
    (h : split_async fs r user video_id parts mode t0 = Except.ok (r2, resp)) :
    r2 = set_job r video_id (queued_record mode t0)
    ∧ r2 video_id = some (queued_record mode t0)
    ∧ (∀ k, k ≠ video_id → r2 k = r k)
    ∧ resp = { job := video_id, status := "queued" } := by
  unfold split_async at h
  split at h
  · exact absurd h (by simp)
  · split at h
    · exact absurd h (by simp)
    · have hp := Except.ok.inj h
      obtain ⟨hr, hresp⟩ := Prod.mk.inj hp
      subst hr
      subst hresp
      refine ⟨rfl, ?_, ?_, rfl⟩
      · simp [set_job]
      · intro k hk
        simp [set_job, hk]

/-- C8 witness: a submission for `v1` while the registry already holds a
terminal record for `v1`; the old record is replaced by the new `queued`
record. -/
theorem C8_submit_overwrites_witness :
    set_job r_prior "v1" (queued_record "fast" 9) "v1" = some (queued_record "fast" 9)
    ∧ r_prior "v1" = some (done_record "heavy" 10 5) := by
  refine ⟨?_, rfl⟩
  exact (C8_submit_overwrites fs_v1 r_prior "user" "v1" 4 "fast" 9
    (set_job r_prior "v1" (queued_record "fast" 9))
    { job := "v1", status := "queued" } rfl).2.1

/-- C9: every lifecycle write of the runner replaces the whole stored
record: the `processing` record holds exactly status, mode and
started_at; the terminal record holds exactly status, mode, parts and
finished_at (`done`) or exactly status, error and finished_at (`error`)
— so queued_at, started_at, and for `error` records also mode, are not
retained. -/
theorem C9_full_record_replacement (env : TranscoderEnv) (t1 t2 : Nat) (video_id : String)
    (parts : Int) (mode : String) :
    ∃ term : JobRecord,
      run_split_job_writes env t1 t2 video_id parts mode
          = [processing_record mode t1, term]
      ∧ processing_record mode t1
          = { status := "processing", mode := some mode, parts := none, error := none,
              queued_at := none, started_at := some t1, finished_at := none }
      ∧ ((∃ n, term
            = { status := "done", mode := some mode, parts := some n, error := none,
                queued_at := none, started_at := none, finished_at := some t2 })
         ∨ (∃ msg, term
            = { status := "error", mode := none, parts := none, error := some msg,
                queued_at := none, started_at := none, finished_at := some t2 })) := by
  cases hsv : split_video env (in_path_of video_id) (out_dir_of video_id mode) parts mode with
  | ok files =>
    refine ⟨done_record mode files.length t2, ?_, rfl, Or.inl ⟨files.length, rfl⟩⟩
    unfold run_split_job_writes
    rw [hsv]
  | error e =>
    refine ⟨error_record (PyExn.str e) t2, ?_, rfl, Or.inr ⟨PyExn.str e, rfl⟩⟩
    unfold run_split_job_writes
    rw [hsv]
